import Mathlib

/-!
Verification of the `image-processor` cloud event handler
(`src/gemini/autocal/services/image-processor/main.py`).

The handler is a linear pipeline: decode the Firestore trigger payload,
call a generative-AI model on the referenced image, parse the JSON reply,
and merge-write the result into the `state` collection.  We embed the
handler shallowly: Python dict/JSON values become an inductive `Json`
type, the three external calls (Gemini `generate_content`, Python
`json.loads`, Firestore `set`) become oracle fields of an
`ExternalWorld` record, and the handler becomes a pure function from the
world and the decoded document to a termination result plus the list of
observable effects (log lines, the AI call, the store write) in program
order.
-/

namespace AutocalImageProcessor

/-- JSON-like values as held by Python dicts in `main.py` (the output of
`MessageToDict`, the argument of `doc_ref.set`, the result of
`json.loads`).  Numeric values are modelled as integers; no numeric
field is ever inspected by the handler. -/
inductive Json where
  | null : Json
  | bool (b : Bool) : Json
  | num (n : Int) : Json
  | str (s : String) : Json
  | arr (elems : List Json) : Json
  | obj (fields : List (String × Json)) : Json

/-- Python truthiness of a JSON-like value: `None`, `False`, `0`, `""`,
`[]` and `{}` are falsy, everything else is truthy.  Used by
`all([gcs_url, mime_type, document_id])` on line 136. -/
def jsonTruthy : Json → Bool
  | .null => false
  | .bool b => b
  | .num n => n != 0
  | .str s => s != ""
  | .arr l => !l.isEmpty
  | .obj l => !l.isEmpty

/-- Truthiness of the result of a Python `dict.get` (absent key gives
`None`, which is falsy). -/
def truthy : Option Json → Bool
  | none => false
  | some j => jsonTruthy j

/-- A Firestore `Value` in `MessageToDict` form: a typed value wrapper,
a dict keyed by the value type (`"stringValue"`, `"integerValue"`,
`"mapValue"`, ...). -/
abbrev ValueWrapper := List (String × Json)

/-- The `MessageToDict` rendering of `firestore_payload.value`: a dict
that carries a `"fields"` map (field name to typed value wrapper) when
the document has fields, and omits the key entirely when it has none. -/
structure DocumentData where
  fields : Option (List (String × ValueWrapper))

/-- Line 132/133/134 of `main.py`:
`document_data.get("fields", {}).get(name, {}).get("stringValue")`. -/
def getWrapped (d : DocumentData) (name : String) : Option Json :=
  (((d.fields.getD []).lookup name).getD []).lookup "stringValue"

/-- `MessageToDict(firestore.DocumentEventData().value)`: the freshly
constructed protobuf message is empty, so its dict form has no
`"fields"` key (line 123 and 130 of `main.py`). -/
def emptyDocumentValueDict : DocumentData := ⟨none⟩

/-- Line 61 of `main.py`. -/
def MODEL_ID : String := "gemini-2.0-flash-001"

/-- Lines 62 to 66 of `main.py`: `os.environ.get("LOCATION", "")`
followed by the fallback `if LOCATION == "" or LOCATION is None:
LOCATION = "europe-west1"`.  The argument is the environment binding of
the `LOCATION` variable (`none` when unset). -/
def LOCATION (envLOCATION : Option String) : String :=
  let l := envLOCATION.getD ""
  if l == "" then "europe-west1" else l

/-- The configuration of `genai.Client` that `main.py` observes. -/
structure GenaiClient where
  vertexai : Bool
  location : String

/-- Line 68 of `main.py`: `genai.Client(vertexai=True, location=LOCATION)`. -/
def client (envLOCATION : Option String) : GenaiClient :=
  { vertexai := true, location := LOCATION envLOCATION }

/-- Lines 74 to 84 of `main.py`: the response schema dict passed to
`GenerateContentConfig`. -/
def response_schema : Json :=
  .obj [("type", .str "OBJECT"),
        ("properties", .obj [
          ("summary", .obj [("type", .str "STRING")]),
          ("location", .obj [("type", .str "STRING")]),
          ("description", .obj [("type", .str "STRING")]),
          ("start", .obj [("type", .str "STRING")]),
          ("end", .obj [("type", .str "STRING")])]),
        ("required", .arr [.str "summary", .str "description", .str "start", .str "end"])]

/-- A Python `datetime.datetime` value (the result of
`datetime.datetime.now()` on line 141). -/
structure PyDatetime where
  year : Nat
  month : Nat
  day : Nat
  hour : Nat
  minute : Nat
  second : Nat
  microsecond : Nat

/-- The field ranges guaranteed by Python's `datetime` constructor. -/
def PyDatetime.Valid (dt : PyDatetime) : Prop :=
  1 ≤ dt.year ∧ dt.year ≤ 9999 ∧ 1 ≤ dt.month ∧ dt.month ≤ 12 ∧
  1 ≤ dt.day ∧ dt.day ≤ 31 ∧ dt.hour ≤ 23 ∧ dt.minute ≤ 59 ∧
  dt.second ≤ 59 ∧ dt.microsecond ≤ 999999

instance (dt : PyDatetime) : Decidable dt.Valid := by
  unfold PyDatetime.Valid
  infer_instance

/-- The decimal digit character for `n < 10`. -/
def digitChar : Nat → Char
  | 0 => '0' | 1 => '1' | 2 => '2' | 3 => '3' | 4 => '4'
  | 5 => '5' | 6 => '6' | 7 => '7' | 8 => '8' | _ => '9'

/-- Two-digit zero-padded decimal rendering (`"%02d"` for values below 100). -/
def pad2 (n : Nat) : String := ⟨[digitChar (n / 10 % 10), digitChar (n % 10)]⟩

/-- Four-digit zero-padded decimal rendering (`"%04d"` for values below 10000). -/
def pad4 (n : Nat) : String :=
  ⟨[digitChar (n / 1000 % 10), digitChar (n / 100 % 10),
    digitChar (n / 10 % 10), digitChar (n % 10)]⟩

/-- Six-digit zero-padded decimal rendering (`"%06d"` for values below 1000000). -/
def pad6 (n : Nat) : String :=
  ⟨[digitChar (n / 100000 % 10), digitChar (n / 10000 % 10), digitChar (n / 1000 % 10),
    digitChar (n / 100 % 10), digitChar (n / 10 % 10), digitChar (n % 10)]⟩

/-- `datetime.isoformat()` as used on line 141: `YYYY-MM-DDTHH:MM:SS`,
with `.ffffff` appended exactly when the microsecond field is nonzero.
Faithful to CPython on the constructor-guaranteed ranges of
`PyDatetime.Valid`. -/
def PyDatetime.isoformat (dt : PyDatetime) : String :=
  pad4 dt.year ++ "-" ++ pad2 dt.month ++ "-" ++ pad2 dt.day ++ "T" ++
  pad2 dt.hour ++ ":" ++ pad2 dt.minute ++ ":" ++ pad2 dt.second ++
  (if dt.microsecond == 0 then "" else "." ++ pad6 dt.microsecond)

/-- Decimal digit test on characters. -/
def isDigitChar (c : Char) : Bool := '0' ≤ c && c ≤ '9'

/-- Syntactic validity check for an ISO-8601 local timestamp:
`YYYY-MM-DDTHH:MM:SS` optionally followed by `.ffffff`. -/
def isISO8601Timestamp (s : String) : Bool :=
  match s.data with
  | y1 :: y2 :: y3 :: y4 :: '-' :: mo1 :: mo2 :: '-' :: d1 :: d2 :: 'T' ::
    h1 :: h2 :: ':' :: mi1 :: mi2 :: ':' :: se1 :: se2 :: rest =>
      ([y1, y2, y3, y4, mo1, mo2, d1, d2, h1, h2, mi1, mi2, se1, se2].all isDigitChar) &&
      (match rest with
       | [] => true
       | '.' :: frac => frac.length == 6 && frac.all isDigitChar
       | _ => false)
  | _ => false

/-- The text of `PROMPT_TEMPLATE` (lines 87 to 113 of `main.py`) that
precedes the `current_datetime` placeholder, after `str.format`
processing. -/
def PROMPT_TEMPLATE_before : String := " The current date and time is: "

/-- The text of `PROMPT_TEMPLATE` that follows the `current_datetime`
placeholder, after `str.format` processing (doubled braces of the
template render as single literal braces, written `\x7b`/`\x7d` here). -/
def PROMPT_TEMPLATE_after : String :=
  ".\n\nAnalyze the provided screenshot and extract the following information: \n\n" ++
  "summary: A brief summary of the event.\n" ++
  "location: The location of the event.\n" ++
  "start time: The start date and time of the event in YYYY-MM-DDTHH:MM:SS format. " ++
  "Assume the event starts in the future.\n" ++
  "end time: The end date and time of the event in YYYY-MM-DDTHH:MM:SS format. " ++
  "Calculate this using the duration, if no duration is mentioned, assume the event is an hour long.\n" ++
  "Ensure the start and end objects include the correct timeZone based on the information in the screenshot.\n" ++
  "duration: The duration of the event in minutes. This could be also written as mins." ++
  "Use this to calculate the end time if provided.\n" ++
  "Ensure the start and end objects include the correct timeZone based on the information in the screenshot.\n" ++
  "description: A short description of the event.\n\n" ++
  "The response should have the following schema:\n\n" ++
  "\x7b\n    \"type\": \"OBJECT\",\n    \"properties\": \x7b\n" ++
  "        \"summary\": \x7b\"type\": \"STRING\"\x7d,\n" ++
  "        \"location\": \x7b\"type\": \"STRING\"\x7d,\n" ++
  "        \"description\": \x7b\"type\": \"STRING\"\x7d,\n" ++
  "        \"start\": \x7b\"type\": \"STRING\"\x7d,\n" ++
  "        \"end\": \x7b\"type\": \"STRING\"\x7d\n    \x7d\n\x7d\n\n"

/-- Line 144 of `main.py`:
`PROMPT_TEMPLATE.format(current_datetime=current_datetime)`. -/
def formatPromptTemplate (current_datetime : String) : String :=
  PROMPT_TEMPLATE_before ++ current_datetime ++ PROMPT_TEMPLATE_after

/-- Python exceptions that can cross the handler's frames. -/
inductive PyExc where
  | googleAPICallError (msg : String)
  | jsonDecodeError (msg : String)
  | genaiCallError (msg : String)
  | otherError (msg : String)

/-- One observable step of a handler invocation, in program order:
the `print` log lines, the single AI call, the single store write. -/
inductive Effect where
  | logTriggerSource (source : String)
  | logNewValueHeader
  | logPayloadValue (d : DocumentData)
  | logMissingFields (d : DocumentData)
  | logRawResponse (text : String)
  | logEventData (j : Json)
  | aiCall (model : String) (fileUri mimeType : Json) (prompt : String) (schema : Json)
  | storeWrite (collection : String) (docId : Json) (payload : Json) (merge : Bool)
  | logWriteSuccess (docId : Json)
  | logWriteError (msg : String)

/-- Whether an effect is the AI-service call. -/
def Effect.isAiCall : Effect → Bool
  | .aiCall _ _ _ _ _ => true
  | _ => false

/-- Whether an effect is a document-store write. -/
def Effect.isStoreWrite : Effect → Bool
  | .storeWrite _ _ _ _ => true
  | _ => false

/-- The oracle for the handler's external interactions during one
invocation: the wall clock at line 141, the outcome of the Gemini
`generate_content` call (the `response.text` string on success, the
propagated exception on failure), the behaviour of Python's
`json.loads`, and the outcome of the Firestore `doc_ref.set` call
(`none` on success, the raised exception otherwise). -/
structure ExternalWorld where
  now : PyDatetime
  aiResult : Except PyExc String
  jsonLoads : String → Except PyExc Json
  writeResult : Option PyExc

/-- How one handler invocation terminates: a normal return, or an
uncaught exception propagating out. -/
inductive HandlerResult where
  | returned
  | raised (e : PyExc)

/-- Lines 132 to 171 of `image_processor`: everything after
`document_data` has been computed.  Returns the termination result and
the effects in program order. -/
def processDocument (w : ExternalWorld) (document_data : DocumentData) :
    HandlerResult × List Effect :=
  let gcs_url := getWrapped document_data "image"
  let mime_type := getWrapped document_data "type"
  let document_id := getWrapped document_data "ID"
  if !(truthy gcs_url && truthy mime_type && truthy document_id) then
    (.returned, [.logMissingFields document_data])
  else
    let current_datetime := (PyDatetime.isoformat w.now)
    let prompt := formatPromptTemplate current_datetime
    let call : Effect :=
      .aiCall MODEL_ID (gcs_url.getD .null) (mime_type.getD .null) prompt response_schema
    match w.aiResult with
    | .error e => (.raised e, [call])
    | .ok text =>
      match w.jsonLoads text with
      | .error e => (.raised e, [call, .logRawResponse text])
      | .ok event_data =>
        let firestore_document : Json :=
          .obj [("processed", .bool true), ("event", event_data)]
        match w.writeResult with
        | none =>
            (.returned,
             [call, .logRawResponse text, .logEventData event_data,
              .storeWrite "state" (document_id.getD .null) firestore_document true,
              .logWriteSuccess (document_id.getD .null)])
        | some (.googleAPICallError m) =>
            (.returned,
             [call, .logRawResponse text, .logEventData event_data,
              .logWriteError m])
        | some e =>
            (.raised e,
             [call, .logRawResponse text, .logEventData event_data])

/-- The cloud event delivered to the handler.  `data` is the serialized
document snapshot carried by the event; the handler never reads it. -/
structure CloudEvent where
  source : String
  data : List Nat

/-- Lines 117 to 171 of `main.py`: the full `image_processor` handler.
Line 123 constructs a fresh, empty `firestore.DocumentEventData()` and
never deserializes `cloud_event`'s payload into it, so `document_data`
is always the empty dict. -/
def image_processor (w : ExternalWorld) (cloud_event : CloudEvent) :
    HandlerResult × List Effect :=
  let firestore_payload := emptyDocumentValueDict
  let document_data := firestore_payload
  let rest := processDocument w document_data
  (rest.1,
   .logTriggerSource cloud_event.source :: .logNewValueHeader ::
   .logPayloadValue firestore_payload :: rest.2)

/-- Modelled from the spec: the external document store's
`set(payload, merge=True)` write semantics, which are not part of this
repository — "merge-write (partial update), not overwrite — existing
fields on the target document are preserved".  Fields named in the
payload are set; every other field of the target keeps its prior
value. -/
def mergeSet (target payload : List (String × Json)) : List (String × Json) :=
  payload ++ target.filter (fun kv => (payload.lookup kv.1).isNone)

/-- A required field of the decoded trigger payload is absent, or
present with the empty string as its `stringValue`. -/
def fieldAbsentOrEmpty (d : DocumentData) (name : String) : Prop :=
  getWrapped d name = none ∨ getWrapped d name = some (.str "")

/- ### Concrete sample inputs (used to instantiate the theorems) -/

/-- The example extraction result from the spec's round-trip property. -/
def sampleEvent : Json :=
  .obj [("summary", .str "Meeting"), ("location", .str "Room 1"),
        ("description", .str "desc"), ("start", .str "2025-06-01T10:00:00"),
        ("end", .str "2025-06-01T11:00:00")]

/-- The raw response text corresponding to `sampleEvent`. -/
def sampleText : String :=
  "\x7b\"summary\":\"Meeting\",\"location\":\"Room 1\",\"description\":\"desc\"," ++
  "\"start\":\"2025-06-01T10:00:00\",\"end\":\"2025-06-01T11:00:00\"\x7d"

/-- A decoded trigger document with all three required fields present. -/
def sampleDoc : DocumentData :=
  ⟨some [("image", [("stringValue", .str "gs://bucket/a.png")]),
         ("type", [("stringValue", .str "image/png")]),
         ("ID", [("stringValue", .str "tx-1")])]⟩

/-- A decoded trigger document whose `ID` field is absent. -/
def dMissingID : DocumentData :=
  ⟨some [("image", [("stringValue", .str "gs://bucket/a.png")]),
         ("type", [("stringValue", .str "image/png")])]⟩

/-- A decoded trigger document whose `image` field carries an integer
value wrapper instead of a string one. -/
def dIntegerImage : DocumentData :=
  ⟨some [("image", [("integerValue", .str "5")]),
         ("type", [("stringValue", .str "image/png")]),
         ("ID", [("stringValue", .str "tx-1")])]⟩

/-- A decoded trigger document whose `type` field carries an integer
value wrapper instead of a string one. -/
def dIntegerType : DocumentData :=
  ⟨some [("image", [("stringValue", .str "gs://bucket/a.png")]),
         ("type", [("integerValue", .str "5")]),
         ("ID", [("stringValue", .str "tx-1")])]⟩

/-- A decoded trigger document whose `ID` field carries an integer
value wrapper instead of a string one. -/
def dIntegerID : DocumentData :=
  ⟨some [("image", [("stringValue", .str "gs://bucket/a.png")]),
         ("type", [("stringValue", .str "image/png")]),
         ("ID", [("integerValue", .str "5")])]⟩

/-- An external world in which every call succeeds. -/
def worldOk : ExternalWorld :=
  { now := ⟨2025, 6, 1, 10, 0, 0, 123456⟩,
    aiResult := .ok sampleText,
    jsonLoads := fun _ => .ok sampleEvent,
    writeResult := none }

/-- Like `worldOk`, but the store write raises `GoogleAPICallError`. -/
def worldApiError : ExternalWorld :=
  { worldOk with writeResult := some (.googleAPICallError "boom") }

/-- Like `worldOk`, but the store write raises a non-API error. -/
def worldOtherError : ExternalWorld :=
  { worldOk with writeResult := some (.otherError "oops") }

/-- Like `worldOk`, but the response text fails to decode as JSON. -/
def worldDecodeError : ExternalWorld :=
  { worldOk with jsonLoads := fun _ => .error (.jsonDecodeError "bad json") }

/- ## Helper lemmas -/

theorem isDigitChar_digitChar_mod (n : Nat) : isDigitChar (digitChar (n % 10)) = true := by
  have h : n % 10 < 10 := Nat.mod_lt _ (by norm_num)
  have hall : ∀ m < 10, isDigitChar (digitChar m) = true := by decide
  exact hall _ h

theorem lookup_filter_eq (l : List (String × Json)) (p : String × Json → Bool) (k : String)
    (hp : ∀ v, p (k, v) = true) : (l.filter p).lookup k = l.lookup k := by
  induction l with
  | nil => rfl
  | cons a t ih =>
    by_cases hk : k = a.1
    · have hpa : p a = true := by
        have : a = (k, a.2) := by rw [hk]
        rw [this]; exact hp a.2
      simp [List.filter, hpa, List.lookup, hk]
    · have hbk : (k == a.1) = false := by simpa using hk
      cases hpa : p a with
      | true => simp [List.filter, hpa, List.lookup, hbk, ih]
      | false => simp [List.filter, hpa, List.lookup, hbk, ih]

theorem isoformat_isISO8601 (dt : PyDatetime) :
    isISO8601Timestamp (PyDatetime.isoformat dt) = true := by
  rcases dt with ⟨y, mo, d, h, mi, s, us⟩
  cases hus : us == 0 with
  | true =>
    show isISO8601Timestamp
      (pad4 y ++ "-" ++ pad2 mo ++ "-" ++ pad2 d ++ "T" ++
       pad2 h ++ ":" ++ pad2 mi ++ ":" ++ pad2 s ++
       (if us == 0 then "" else "." ++ pad6 us)) = true
    rw [hus]
    simp [isISO8601Timestamp, pad4, pad2, isDigitChar_digitChar_mod]
  | false =>
    show isISO8601Timestamp
      (pad4 y ++ "-" ++ pad2 mo ++ "-" ++ pad2 d ++ "T" ++
       pad2 h ++ ":" ++ pad2 mi ++ ":" ++ pad2 s ++
       (if us == 0 then "" else "." ++ pad6 us)) = true
    rw [hus]
    simp [isISO8601Timestamp, pad4, pad2, pad6, isDigitChar_digitChar_mod]

theorem mergeSet_preserves_other (target : List (String × Json)) (ev : Json) (k : String)
    (h1 : k ≠ "processed") (h2 : k ≠ "event") :
    (mergeSet target [("processed", .bool true), ("event", ev)]).lookup k =
      target.lookup k := by
  have hb1 : (k == "processed") = false := by simpa using h1
  have hb2 : (k == "event") = false := by simpa using h2
  unfold mergeSet
  simp only [List.cons_append, List.nil_append, List.lookup, hb1, hb2]
  exact lookup_filter_eq _ _ _ (fun v => by simp [List.lookup, hb1, hb2])

theorem processDocument_write_ok (w : ExternalWorld) (d : DocumentData)
    (text : String) (j : Json)
    (himg : truthy (getWrapped d "image") = true)
    (hty : truthy (getWrapped d "type") = true)
    (hid : truthy (getWrapped d "ID") = true)
    (hai : w.aiResult = .ok text)
    (hjs : w.jsonLoads text = .ok j)
    (hw : w.writeResult = none) :
    processDocument w d =
      (.returned,
       [.aiCall MODEL_ID ((getWrapped d "image").getD .null)
          ((getWrapped d "type").getD .null)
          (formatPromptTemplate (PyDatetime.isoformat w.now)) response_schema,
        .logRawResponse text, .logEventData j,
        .storeWrite "state" ((getWrapped d "ID").getD .null)
          (.obj [("processed", .bool true), ("event", j)]) true,
        .logWriteSuccess ((getWrapped d "ID").getD .null)]) := by
  unfold processDocument
  simp [himg, hty, hid, hai, hjs, hw]

theorem processDocument_write_apiError (w : ExternalWorld) (d : DocumentData)
    (text : String) (j : Json) (m : String)
    (himg : truthy (getWrapped d "image") = true)
    (hty : truthy (getWrapped d "type") = true)
    (hid : truthy (getWrapped d "ID") = true)
    (hai : w.aiResult = .ok text)
    (hjs : w.jsonLoads text = .ok j)
    (hw : w.writeResult = some (.googleAPICallError m)) :
    processDocument w d =
      (.returned,
       [.aiCall MODEL_ID ((getWrapped d "image").getD .null)
          ((getWrapped d "type").getD .null)
          (formatPromptTemplate (PyDatetime.isoformat w.now)) response_schema,
        .logRawResponse text, .logEventData j, .logWriteError m]) := by
  unfold processDocument
  simp [himg, hty, hid, hai, hjs, hw]

theorem processDocument_write_raised (w : ExternalWorld) (d : DocumentData)
    (text : String) (j : Json) (e : PyExc)
    (himg : truthy (getWrapped d "image") = true)
    (hty : truthy (getWrapped d "type") = true)
    (hid : truthy (getWrapped d "ID") = true)
    (hai : w.aiResult = .ok text)
    (hjs : w.jsonLoads text = .ok j)
    (hw : w.writeResult = some e)
    (hne : ∀ m, e ≠ .googleAPICallError m) :
    processDocument w d =
      (.raised e,
       [.aiCall MODEL_ID ((getWrapped d "image").getD .null)
          ((getWrapped d "type").getD .null)
          (formatPromptTemplate (PyDatetime.isoformat w.now)) response_schema,
        .logRawResponse text, .logEventData j]) := by
  cases e with
  | googleAPICallError m => exact absurd rfl (hne m)
  | jsonDecodeError m => unfold processDocument; simp [himg, hty, hid, hai, hjs, hw]
  | genaiCallError m => unfold processDocument; simp [himg, hty, hid, hai, hjs, hw]
  | otherError m => unfold processDocument; simp [himg, hty, hid, hai, hjs, hw]

theorem processDocument_decode_error (w : ExternalWorld) (d : DocumentData)
    (text : String) (e : PyExc)
    (himg : truthy (getWrapped d "image") = true)
    (hty : truthy (getWrapped d "type") = true)
    (hid : truthy (getWrapped d "ID") = true)
    (hai : w.aiResult = .ok text)
    (hjs : w.jsonLoads text = .error e) :
    processDocument w d =
      (.raised e,
       [.aiCall MODEL_ID ((getWrapped d "image").getD .null)
          ((getWrapped d "type").getD .null)
          (formatPromptTemplate (PyDatetime.isoformat w.now)) response_schema,
        .logRawResponse text]) := by
  unfold processDocument
  simp [himg, hty, hid, hai, hjs]

theorem processDocument_skip (w : ExternalWorld) (d : DocumentData)
    (hfalse : (truthy (getWrapped d "image") && truthy (getWrapped d "type") &&
        truthy (getWrapped d "ID")) = false) :
    processDocument w d = (.returned, [.logMissingFields d]) := by
  unfold processDocument
  simp [hfalse]

theorem processDocument_ai_error (w : ExternalWorld) (d : DocumentData) (e : PyExc)
    (himg : truthy (getWrapped d "image") = true)
    (hty : truthy (getWrapped d "type") = true)
    (hid : truthy (getWrapped d "ID") = true)
    (hai : w.aiResult = .error e) :
    processDocument w d =
      (.raised e,
       [.aiCall MODEL_ID ((getWrapped d "image").getD .null)
          ((getWrapped d "type").getD .null)
          (formatPromptTemplate (PyDatetime.isoformat w.now)) response_schema]) := by
  unfold processDocument
  simp [himg, hty, hid, hai]

theorem aiCall_mem_of_valid (w : ExternalWorld) (d : DocumentData)
    (himg : truthy (getWrapped d "image") = true)
    (hty : truthy (getWrapped d "type") = true)
    (hid : truthy (getWrapped d "ID") = true) :
    Effect.aiCall MODEL_ID ((getWrapped d "image").getD .null)
      ((getWrapped d "type").getD .null)
      (formatPromptTemplate (PyDatetime.isoformat w.now)) response_schema
      ∈ (processDocument w d).2 := by
  rcases hai : w.aiResult with e | text
  · rw [processDocument_ai_error w d e himg hty hid hai]; simp
  · rcases hjs : w.jsonLoads text with e | j
    · rw [processDocument_decode_error w d text e himg hty hid hai hjs]; simp
    · rcases hw : w.writeResult with _ | e
      · rw [processDocument_write_ok w d text j himg hty hid hai hjs hw]; simp
      · cases e with
        | googleAPICallError m =>
          rw [processDocument_write_apiError w d text j m himg hty hid hai hjs hw]; simp
        | jsonDecodeError m =>
          rw [processDocument_write_raised w d text j _ himg hty hid hai hjs hw
            (fun _ h => PyExc.noConfusion h)]; simp
        | genaiCallError m =>
          rw [processDocument_write_raised w d text j _ himg hty hid hai hjs hw
            (fun _ h => PyExc.noConfusion h)]; simp
        | otherError m =>
          rw [processDocument_write_raised w d text j _ himg hty hid hai hjs hw
            (fun _ h => PyExc.noConfusion h)]; simp

theorem processDocument_storeWrite_eq (w : ExternalWorld) (d : DocumentData)
    (text : String) (j : Json)
    (himg : truthy (getWrapped d "image") = true)
    (hty : truthy (getWrapped d "type") = true)
    (hid : truthy (getWrapped d "ID") = true)
    (hai : w.aiResult = .ok text)
    (hjs : w.jsonLoads text = .ok j) :
    ∀ c i pl mg, Effect.storeWrite c i pl mg ∈ (processDocument w d).2 →
      c = "state" ∧ i = (getWrapped d "ID").getD .null ∧
      pl = .obj [("processed", .bool true), ("event", j)] ∧ mg = true := by
  intro c i pl mg hmem
  rcases hw : w.writeResult with _ | e
  · rw [processDocument_write_ok w d text j himg hty hid hai hjs hw] at hmem
    simp at hmem
    exact hmem
  · cases e with
    | googleAPICallError m =>
      rw [processDocument_write_apiError w d text j m himg hty hid hai hjs hw] at hmem
      simp at hmem
    | jsonDecodeError m =>
      rw [processDocument_write_raised w d text j _ himg hty hid hai hjs hw
        (fun _ h => PyExc.noConfusion h)] at hmem
      simp at hmem
    | genaiCallError m =>
      rw [processDocument_write_raised w d text j _ himg hty hid hai hjs hw
        (fun _ h => PyExc.noConfusion h)] at hmem
      simp at hmem
    | otherError m =>
      rw [processDocument_write_raised w d text j _ himg hty hid hai hjs hw
        (fun _ h => PyExc.noConfusion h)] at hmem
      simp at hmem

/- ## Claim theorems -/

/-- C1: for every incoming cloud event, the handler builds its document
snapshot from a freshly constructed, empty `DocumentEventData` and never
deserializes the event's payload bytes into it; the three extracted
fields are always absent, the missing-fields branch is always taken,
and the handler returns without calling the AI service or performing
any document-store write, regardless of the event's contents and of how
the external services would have behaved. -/
theorem C1_payload_never_deserialized (w : ExternalWorld) (ce : CloudEvent) :
    image_processor w ce =
      (.returned,
       [.logTriggerSource ce.source, .logNewValueHeader,
        .logPayloadValue emptyDocumentValueDict,
        .logMissingFields emptyDocumentValueDict]) ∧
    getWrapped emptyDocumentValueDict "image" = none ∧
    getWrapped emptyDocumentValueDict "type" = none ∧
    getWrapped emptyDocumentValueDict "ID" = none ∧
    ((image_processor w ce).2.all fun e => !e.isAiCall && !e.isStoreWrite) = true :=
  ⟨rfl, rfl, rfl, rfl, rfl⟩

/-- C2: for every decoded trigger payload in which any of the three
required fields `image`, `type`, `ID` is absent or empty, the handler
logs the payload and returns normally with no side effects: no AI call,
no document-store write. -/
theorem C2_missing_field_silent_skip (w : ExternalWorld) (d : DocumentData)
    (h : fieldAbsentOrEmpty d "image" ∨ fieldAbsentOrEmpty d "type" ∨
         fieldAbsentOrEmpty d "ID") :
    processDocument w d = (.returned, [.logMissingFields d]) ∧
    ((processDocument w d).2.all fun e => !e.isAiCall && !e.isStoreWrite) = true := by
  have hfalse : (truthy (getWrapped d "image") && truthy (getWrapped d "type") &&
      truthy (getWrapped d "ID")) = false := by
    rcases h with h | h | h <;> rcases h with h | h <;>
      simp [truthy, jsonTruthy, h]
  have h1 : processDocument w d = (.returned, [.logMissingFields d]) := by
    unfold processDocument
    simp [hfalse]
  exact ⟨h1, by rw [h1]; rfl⟩

/-- C2 witness: a concrete payload missing `ID` is silently skipped. -/
theorem C2_missing_field_silent_skip_witness :
    processDocument worldOk dMissingID = (.returned, [.logMissingFields dMissingID]) ∧
    ((processDocument worldOk dMissingID).2.all fun e => !e.isAiCall && !e.isStoreWrite) = true :=
  C2_missing_field_silent_skip worldOk dMissingID (Or.inr (Or.inr (Or.inl rfl)))

/-- C3: for every AI response whose text parses as JSON, the document
merged into `state/<transactionId>` is exactly the two-field object
`\x7bprocessed: true, event: <parsed JSON>\x7d`; no other top-level field is
set by the handler. -/
theorem C3_merge_payload_exact (w : ExternalWorld) (d : DocumentData)
    (text : String) (j : Json)
    (himg : truthy (getWrapped d "image") = true)
    (hty : truthy (getWrapped d "type") = true)
    (hid : truthy (getWrapped d "ID") = true)
    (hai : w.aiResult = .ok text)
    (hjs : w.jsonLoads text = .ok j) :
    ∀ c i pl mg, Effect.storeWrite c i pl mg ∈ (processDocument w d).2 →
      c = "state" ∧ i = (getWrapped d "ID").getD .null ∧
      pl = .obj [("processed", .bool true), ("event", j)] ∧ mg = true :=
  processDocument_storeWrite_eq w d text j himg hty hid hai hjs

/-- C3 witness: on a concrete valid payload and AI response the write
payload is exactly the two-field object. -/
theorem C3_merge_payload_exact_witness :
    "state" = "state" ∧
    Json.str "tx-1" = (getWrapped sampleDoc "ID").getD .null ∧
    Json.obj [("processed", .bool true), ("event", sampleEvent)] =
      .obj [("processed", .bool true), ("event", sampleEvent)] ∧
    true = true :=
  C3_merge_payload_exact worldOk sampleDoc sampleText sampleEvent rfl rfl rfl rfl rfl
    "state" (.str "tx-1") (.obj [("processed", .bool true), ("event", sampleEvent)]) true
    (List.Mem.tail _ (List.Mem.tail _ (List.Mem.tail _ (List.Mem.head _))))

/-- C4: every document-store write the handler performs is a merge
(partial update): the merge flag is set, the payload names only
`processed` and `event`, and under the merge semantics every other
field of any pre-existing target document keeps its prior value. -/
theorem C4_write_is_merge_preserving (w : ExternalWorld) (d : DocumentData) :
    ∀ c i pl mg, Effect.storeWrite c i pl mg ∈ (processDocument w d).2 →
      mg = true ∧
      ∃ ev, pl = .obj [("processed", .bool true), ("event", ev)] ∧
        ∀ (target : List (String × Json)) (k : String),
          k ≠ "processed" → k ≠ "event" →
          (mergeSet target [("processed", .bool true), ("event", ev)]).lookup k =
            target.lookup k := by
  intro c i pl mg hmem
  by_cases himg : truthy (getWrapped d "image") = true
  · by_cases hty : truthy (getWrapped d "type") = true
    · by_cases hid : truthy (getWrapped d "ID") = true
      · rcases hai : w.aiResult with e | text
        · rw [processDocument_ai_error w d e himg hty hid hai] at hmem
          simp at hmem
        · rcases hjs : w.jsonLoads text with e | j
          · rw [processDocument_decode_error w d text e himg hty hid hai hjs] at hmem
            simp at hmem
          · rcases hw : w.writeResult with _ | e
            · rw [processDocument_write_ok w d text j himg hty hid hai hjs hw] at hmem
              simp at hmem
              exact ⟨hmem.2.2.2, j, hmem.2.2.1,
                fun target k h1 h2 => mergeSet_preserves_other target j k h1 h2⟩
            · cases e with
              | googleAPICallError m =>
                rw [processDocument_write_apiError w d text j m himg hty hid hai hjs hw] at hmem
                simp at hmem
              | jsonDecodeError m =>
                rw [processDocument_write_raised w d text j _ himg hty hid hai hjs hw
                  (fun _ h => PyExc.noConfusion h)] at hmem
                simp at hmem
              | genaiCallError m =>
                rw [processDocument_write_raised w d text j _ himg hty hid hai hjs hw
                  (fun _ h => PyExc.noConfusion h)] at hmem
                simp at hmem
              | otherError m =>
                rw [processDocument_write_raised w d text j _ himg hty hid hai hjs hw
                  (fun _ h => PyExc.noConfusion h)] at hmem
                simp at hmem
      · rw [Bool.not_eq_true] at hid
        rw [processDocument_skip w d (by simp [hid])] at hmem
        simp at hmem
    · rw [Bool.not_eq_true] at hty
      rw [processDocument_skip w d (by simp [hty])] at hmem
      simp at hmem
  · rw [Bool.not_eq_true] at himg
    rw [processDocument_skip w d (by simp [himg])] at hmem
    simp at hmem

/-- C4 witness: a concrete write is a merge and a concrete unrelated
field (`active`) of a concrete pre-existing target survives it. -/
theorem C4_write_is_merge_preserving_witness :
    true = true ∧
    ∃ ev, Json.obj [("processed", .bool true), ("event", sampleEvent)] =
        .obj [("processed", .bool true), ("event", ev)] ∧
      ∀ (target : List (String × Json)) (k : String),
        k ≠ "processed" → k ≠ "event" →
        (mergeSet target [("processed", .bool true), ("event", ev)]).lookup k =
          target.lookup k :=
  C4_write_is_merge_preserving worldOk sampleDoc "state" (.str "tx-1")
    (.obj [("processed", .bool true), ("event", sampleEvent)]) true
    (List.Mem.tail _ (List.Mem.tail _ (List.Mem.tail _ (List.Mem.head _))))

/-- C5: during the write step exactly the recognized document-store API
error class is caught: on `GoogleAPICallError` the handler logs it and
returns normally; on any other exception type the exception propagates
and the invocation terminates abnormally. -/
theorem C5_write_exception_asymmetry (w : ExternalWorld) (d : DocumentData)
    (text : String) (j : Json)
    (himg : truthy (getWrapped d "image") = true)
    (hty : truthy (getWrapped d "type") = true)
    (hid : truthy (getWrapped d "ID") = true)
    (hai : w.aiResult = .ok text)
    (hjs : w.jsonLoads text = .ok j) :
    (∀ m, w.writeResult = some (.googleAPICallError m) →
        (processDocument w d).1 = .returned ∧
        Effect.logWriteError m ∈ (processDocument w d).2) ∧
    (∀ e, w.writeResult = some e → (∀ m, e ≠ .googleAPICallError m) →
        (processDocument w d).1 = .raised e) := by
  constructor
  · intro m hw
    rw [processDocument_write_apiError w d text j m himg hty hid hai hjs hw]
    exact ⟨rfl, by simp⟩
  · intro e hw hne
    rw [processDocument_write_raised w d text j e himg hty hid hai hjs hw hne]

/-- C5 witness: a concrete `GoogleAPICallError` write failure is logged
and swallowed, while a concrete other write failure propagates. -/
theorem C5_write_exception_asymmetry_witness :
    ((processDocument worldApiError sampleDoc).1 = .returned ∧
     Effect.logWriteError "boom" ∈ (processDocument worldApiError sampleDoc).2) ∧
    (processDocument worldOtherError sampleDoc).1 = .raised (.otherError "oops") :=
  ⟨(C5_write_exception_asymmetry worldApiError sampleDoc sampleText sampleEvent
      rfl rfl rfl rfl rfl).1 "boom" rfl,
   (C5_write_exception_asymmetry worldOtherError sampleDoc sampleText sampleEvent
      rfl rfl rfl rfl rfl).2 (.otherError "oops") rfl
      (fun _ h => PyExc.noConfusion h)⟩

/-- C6: when the AI response text is not valid JSON the decode failure
is not caught anywhere in the handler: the exception propagates, the
invocation fails abnormally, and no document-store write occurs. -/
theorem C6_decode_failure_propagates (w : ExternalWorld) (d : DocumentData)
    (text : String) (e : PyExc)
    (himg : truthy (getWrapped d "image") = true)
    (hty : truthy (getWrapped d "type") = true)
    (hid : truthy (getWrapped d "ID") = true)
    (hai : w.aiResult = .ok text)
    (hjs : w.jsonLoads text = .error e) :
    (processDocument w d).1 = .raised e ∧
    ((processDocument w d).2.all fun ef => !ef.isStoreWrite) = true := by
  rw [processDocument_decode_error w d text e himg hty hid hai hjs]
  exact ⟨rfl, rfl⟩

/-- C6 witness: a concrete decode failure propagates and no write occurs. -/
theorem C6_decode_failure_propagates_witness :
    (processDocument worldDecodeError sampleDoc).1 = .raised (.jsonDecodeError "bad json") ∧
    ((processDocument worldDecodeError sampleDoc).2.all fun ef => !ef.isStoreWrite) = true :=
  C6_decode_failure_propagates worldDecodeError sampleDoc sampleText
    (.jsonDecodeError "bad json") rfl rfl rfl rfl rfl

/-- C7: for every decoded trigger payload passing the required-field
check, the instruction text submitted to the AI service is the fixed
template with the current wall-clock instant interpolated, and it
contains a syntactically valid ISO-8601 timestamp.  The validity
hypothesis on the clock records the range on which the zero-padded
rendering is faithful to CPython. -/
theorem C7_prompt_has_iso_timestamp (w : ExternalWorld) (d : DocumentData)
    (himg : truthy (getWrapped d "image") = true)
    (hty : truthy (getWrapped d "type") = true)
    (hid : truthy (getWrapped d "ID") = true)
    (hv : w.now.Valid) :
    ∃ p, Effect.aiCall MODEL_ID ((getWrapped d "image").getD .null)
        ((getWrapped d "type").getD .null) p response_schema ∈ (processDocument w d).2 ∧
      p = formatPromptTemplate (PyDatetime.isoformat w.now) ∧
      ∃ ts, p = PROMPT_TEMPLATE_before ++ ts ++ PROMPT_TEMPLATE_after ∧
        isISO8601Timestamp ts = true :=
  ⟨_, aiCall_mem_of_valid w d himg hty hid, rfl,
   PyDatetime.isoformat w.now, rfl, isoformat_isISO8601 w.now⟩

/-- C7 witness: instantiated on a concrete valid payload and clock. -/
theorem C7_prompt_has_iso_timestamp_witness :
    worldOk.now.Valid ∧
    ∃ p, Effect.aiCall MODEL_ID ((getWrapped sampleDoc "image").getD .null)
        ((getWrapped sampleDoc "type").getD .null) p response_schema ∈
          (processDocument worldOk sampleDoc).2 ∧
      p = formatPromptTemplate (PyDatetime.isoformat worldOk.now) ∧
      ∃ ts, p = PROMPT_TEMPLATE_before ++ ts ++ PROMPT_TEMPLATE_after ∧
        isISO8601Timestamp ts = true :=
  ⟨by decide, C7_prompt_has_iso_timestamp worldOk sampleDoc rfl rfl rfl (by decide)⟩

/-- C8: round-trip — for every AI response whose text parses as a JSON
value, the `event` field of the merge payload written to the store
equals the parsed value exactly, with no transformation. -/
theorem C8_event_roundtrip (w : ExternalWorld) (d : DocumentData)
    (text : String) (j : Json)
    (himg : truthy (getWrapped d "image") = true)
    (hty : truthy (getWrapped d "type") = true)
    (hid : truthy (getWrapped d "ID") = true)
    (hai : w.aiResult = .ok text)
    (hjs : w.jsonLoads text = .ok j) :
    ∀ c i pl mg, Effect.storeWrite c i pl mg ∈ (processDocument w d).2 →
      ∃ fs, pl = .obj fs ∧ fs.lookup "event" = some j := by
  intro c i pl mg hmem
  have h := processDocument_storeWrite_eq w d text j himg hty hid hai hjs c i pl mg hmem
  exact ⟨[("processed", .bool true), ("event", j)], h.2.2.1, rfl⟩

/-- C8 witness: the spec's example object is stored in `event` untouched. -/
theorem C8_event_roundtrip_witness :
    ∃ fs, Json.obj [("processed", .bool true), ("event", sampleEvent)] = .obj fs ∧
      fs.lookup "event" = some sampleEvent :=
  C8_event_roundtrip worldOk sampleDoc sampleText sampleEvent rfl rfl rfl rfl rfl
    "state" (.str "tx-1") (.obj [("processed", .bool true), ("event", sampleEvent)]) true
    (List.Mem.tail _ (List.Mem.tail _ (List.Mem.tail _ (List.Mem.head _))))

/-- C9: the trigger decoder reads only the `stringValue` wrapper of each
of the three required fields `image`, `type`, `ID`; a field carrying any
other value type yields no string and is treated exactly like an absent
field, triggering the skip path. -/
theorem C9_non_string_wrapper_skips (w : ExternalWorld) (d : DocumentData)
    (name : String) (wr : ValueWrapper)
    (hname : name = "image" ∨ name = "type" ∨ name = "ID")
    (hwr : (d.fields.getD []).lookup name = some wr)
    (hns : wr.lookup "stringValue" = none) :
    getWrapped d name = none ∧
    processDocument w d = (.returned, [.logMissingFields d]) ∧
    ((processDocument w d).2.all fun e => !e.isAiCall && !e.isStoreWrite) = true := by
  have hget : getWrapped d name = none := by
    unfold getWrapped
    rw [hwr]
    exact hns
  have h1 : processDocument w d = (.returned, [.logMissingFields d]) := by
    rcases hname with hname | hname | hname <;> subst hname <;>
      exact processDocument_skip w d (by simp [truthy, hget])
  exact ⟨hget, h1, by rw [h1]; rfl⟩

/-- C9 witness: a concrete `integerValue`-typed wrapper on each of
`image`, `type` and `ID` in turn yields no string and skips. -/
theorem C9_non_string_wrapper_skips_witness :
    (getWrapped dIntegerImage "image" = none ∧
     processDocument worldOk dIntegerImage = (.returned, [.logMissingFields dIntegerImage]) ∧
     ((processDocument worldOk dIntegerImage).2.all fun e => !e.isAiCall && !e.isStoreWrite) = true) ∧
    (getWrapped dIntegerType "type" = none ∧
     processDocument worldOk dIntegerType = (.returned, [.logMissingFields dIntegerType]) ∧
     ((processDocument worldOk dIntegerType).2.all fun e => !e.isAiCall && !e.isStoreWrite) = true) ∧
    (getWrapped dIntegerID "ID" = none ∧
     processDocument worldOk dIntegerID = (.returned, [.logMissingFields dIntegerID]) ∧
     ((processDocument worldOk dIntegerID).2.all fun e => !e.isAiCall && !e.isStoreWrite) = true) :=
  ⟨C9_non_string_wrapper_skips worldOk dIntegerImage "image" [("integerValue", .str "5")]
     (Or.inl rfl) rfl rfl,
   C9_non_string_wrapper_skips worldOk dIntegerType "type" [("integerValue", .str "5")]
     (Or.inr (Or.inl rfl)) rfl rfl,
   C9_non_string_wrapper_skips worldOk dIntegerID "ID" [("integerValue", .str "5")]
     (Or.inr (Or.inr rfl)) rfl rfl⟩

/-- C10: the AI-service client's regional endpoint is selected by the
`LOCATION` environment variable, and when it is unset or empty the
fixed default region `"europe-west1"` is used. -/
theorem C10_location_selection :
    LOCATION none = "europe-west1" ∧ LOCATION (some "") = "europe-west1" ∧
    (∀ s, s ≠ "" → LOCATION (some s) = s) ∧
    (∀ envL, (client envL).location = LOCATION envL) := by
  refine ⟨rfl, rfl, ?_, fun _ => rfl⟩
  intro s hs
  unfold LOCATION
  have hb : (s == "") = false := by simpa using hs
  simp [hb]

/-- C10 witness: a concrete nonempty `LOCATION` value is used as-is. -/
theorem C10_location_selection_witness :
    LOCATION (some "us-central1") = "us-central1" :=
  C10_location_selection.2.2.1 "us-central1" (by decide)

end AutocalImageProcessor
